import Mathlib

/-!
Verification of the SPH fluid-simulation core of the repository
(`src/sim.rs`, `src/spatial_hash.rs`, `src/keyboard.rs`).

Embedding conventions:
* `f32` values are idealized as exact rationals (`ℚ`); `std::f32::consts::PI`
  is embedded as the exact rational value of the 32-bit float constant.
* Euclidean lengths (`Vec2::length`, which needs a square root) are supplied
  through an oracle `len : Vec2 → ℚ` together with the hypothesis
  `0 ≤ len v ∧ len v * len v = dot v v` at every use site, so all
  definitions stay computable over `ℚ`.
* `rand::random::<f32>() - 0.5` values are supplied through explicit `rnd`
  parameters.
* Rust `as usize` casts of non-negative small floats truncate toward zero
  and saturate at 0 for negative inputs; `rustAsUsize` models this.
-/

namespace FluidSim

/-- 2-D vector of rationals, modelling `bevy::math::Vec2`. -/
abbrev Vec2 := ℚ × ℚ

/-- Dot product, modelling `Vec2::dot`. -/
def dot (v w : Vec2) : ℚ := v.1 * w.1 + v.2 * w.2

/-- The exact rational value of the 32-bit float `std::f32::consts::PI`
(bit pattern 0x40490FDB). -/
def pi32 : ℚ := 13176795 / 4194304

/-- Models Rust `as usize` on a (small) float: truncation toward zero,
saturating at 0 for negative values. -/
def rustAsUsize (q : ℚ) : ℕ := (⌊q⌋).toNat

/-- Models `f32::signum`: 1.0 for non-negative (incl. +0.0), -1.0 for negative. -/
def rsignum (q : ℚ) : ℚ := if q < 0 then -1 else 1

/-- The simulation state: the fields of `Simulation` in `src/sim.rs`
used by the verified operations.  Particle arrays are modelled as
functions from the particle id. -/
structure Sim where
  num_particles : ℕ
  smoothing_radius : ℚ
  smoothing_scaling_factor : ℚ
  smoothing_derivative_scaling_factor : ℚ
  particle_size : ℚ
  scale : ℚ
  half_bounds_size : Vec2
  gravity : Vec2
  target_density : ℚ
  pressure_multiplier : ℚ
  near_pressure_multiplier : ℚ
  speed_limit : ℚ
  collision_damping : ℚ
  interaction_input_strength : ℚ
  interaction_input_radius : ℚ
  interaction_input_point : Vec2
  positions : ℕ → Vec2
  velocities : ℕ → Vec2
  densities : ℕ → ℚ × ℚ
  poly6_scaling_factor : ℚ
  spiky_pow3_scaling_factor : ℚ
  spiky_pow2_scaling_factor : ℚ
  spiky_pow3_derivative_scaling_factor : ℚ
  spiky_pow2_derivative_scaling_factor : ℚ
  use_inertia : Bool
  use_viscosity : Bool

/-- `Simulation::smoothing_kernel` (src/sim.rs:429-435). -/
def smoothing_kernel (s : Sim) (distance : ℚ) : ℚ :=
  if s.smoothing_radius ≤ distance then 0
  else (s.smoothing_radius - distance) * (s.smoothing_radius - distance) *
    s.smoothing_scaling_factor

/-- `Simulation::smoothing_kernel_derivative` (src/sim.rs:437-443). -/
def smoothing_kernel_derivative (s : Sim) (distance : ℚ) : ℚ :=
  if s.smoothing_radius ≤ distance then 0
  else (distance - s.smoothing_radius) * s.smoothing_derivative_scaling_factor

/-- `Simulation::smoothing_kernel_poly6` (src/sim.rs:528-534). -/
def smoothing_kernel_poly6 (s : Sim) (dst : ℚ) : ℚ :=
  if dst < s.smoothing_radius then
    let v : ℚ := s.smoothing_radius * s.smoothing_radius - dst * dst
    v * v * v * s.poly6_scaling_factor
  else 0

/-- `Simulation::spiky_kernel_pow3` (src/sim.rs:536-542). -/
def spiky_kernel_pow3 (s : Sim) (dst : ℚ) : ℚ :=
  if dst < s.smoothing_radius then
    let v : ℚ := s.smoothing_radius - dst
    v * v * v * s.spiky_pow3_scaling_factor
  else 0

/-- `Simulation::spiky_kernel_pow2` (src/sim.rs:544-550). -/
def spiky_kernel_pow2 (s : Sim) (dst : ℚ) : ℚ :=
  if dst < s.smoothing_radius then
    let v : ℚ := s.smoothing_radius - dst
    v * v * s.spiky_pow2_scaling_factor
  else 0

/-- `Simulation::derivative_spiky_pow3` (src/sim.rs:552-558). -/
def derivative_spiky_pow3 (s : Sim) (dst : ℚ) : ℚ :=
  if dst < s.smoothing_radius then
    let v : ℚ := s.smoothing_radius - dst;
    (-v) * v * s.spiky_pow3_derivative_scaling_factor
  else 0

/-- `Simulation::derivative_spiky_pow2` (src/sim.rs:560-566). -/
def derivative_spiky_pow2 (s : Sim) (dst : ℚ) : ℚ :=
  if dst < s.smoothing_radius then
    let v : ℚ := s.smoothing_radius - dst;
    (-v) * s.spiky_pow2_derivative_scaling_factor
  else 0

/-- `Simulation::shared_pressure` (src/sim.rs:445-449). -/
def shared_pressure (s : Sim) (density1 density2 : ℚ) : ℚ :=
  let density_error1 := density1 - s.target_density
  let density_error2 := density2 - s.target_density
  (density_error1 + density_error2) * s.pressure_multiplier / 2

/-- Defining formula of `smoothing_scaling_factor`:
`6.0 / (PI * smoothing_radius.powf(4.0))` (src/sim.rs:113, 419). -/
def smoothing_scaling_formula (h : ℚ) : ℚ := 6 / (pi32 * h ^ 4)

/-- Defining formula of `smoothing_derivative_scaling_factor`:
`PI * smoothing_radius.powf(4.0) / 6.0` (src/sim.rs:114, 420). -/
def smoothing_derivative_scaling_formula (h : ℚ) : ℚ := pi32 * h ^ 4 / 6

/-- Defining formula of `poly6_scaling_factor`:
`4.0 / (PI * smoothing_radius.powf(8.0))` (src/sim.rs:140). -/
def poly6_scaling_formula (h : ℚ) : ℚ := 4 / (pi32 * h ^ 8)

/-- Defining formula of `spiky_pow3_scaling_factor`:
`10.0 / (PI * smoothing_radius.powf(5.0))` (src/sim.rs:141). -/
def spiky_pow3_scaling_formula (h : ℚ) : ℚ := 10 / (pi32 * h ^ 5)

/-- Defining formula of `spiky_pow2_scaling_factor`:
`6.0 / (PI * smoothing_radius.powf(4.0))` (src/sim.rs:142). -/
def spiky_pow2_scaling_formula (h : ℚ) : ℚ := 6 / (pi32 * h ^ 4)

/-- Defining formula of `spiky_pow3_derivative_scaling_factor`:
`30.0 / (smoothing_radius.powf(5.0) * PI)` (src/sim.rs:143). -/
def spiky_pow3_derivative_scaling_formula (h : ℚ) : ℚ := 30 / (h ^ 5 * pi32)

/-- Defining formula of `spiky_pow2_derivative_scaling_factor`:
`12.0 / (smoothing_radius.powf(4.0) * PI)` (src/sim.rs:144). -/
def spiky_pow2_derivative_scaling_formula (h : ℚ) : ℚ := 12 / (h ^ 4 * pi32)

/-- `Simulation::adj_smoothing_radius` (src/sim.rs:417-422): clamps the new
radius below by `increment.abs()` and recomputes the two smoothing scaling
factors (and only those). -/
def adj_smoothing_radius (s : Sim) (increment : ℚ) : Sim :=
  let h := max (s.smoothing_radius + increment) |increment|
  { s with
    smoothing_radius := h
    smoothing_scaling_factor := 6 / (pi32 * h ^ 4)
    smoothing_derivative_scaling_factor := pi32 * h ^ 4 / 6 }

/-- `Simulation::adj_gravity` (src/sim.rs:424-427):
`self.gravity.y = (self.gravity.y + increment).min(0.0)`. -/
def adj_gravity (s : Sim) (increment : ℚ) : Sim :=
  { s with gravity := (s.gravity.1, min (s.gravity.2 + increment) 0) }

/-- `Simulation::resolve_collisions` (src/sim.rs:451-460): each axis is
checked independently; an out-of-bounds coordinate is clamped to the
boundary times its sign and the matching velocity component is multiplied
by `-1.0 * collision_damping`. -/
def resolve_collisions (s : Sim) (pos vel : Vec2) : Vec2 × Vec2 :=
  let px := if s.half_bounds_size.1 < |pos.1|
    then s.half_bounds_size.1 * rsignum pos.1 else pos.1
  let vx := if s.half_bounds_size.1 < |pos.1|
    then vel.1 * (-1 * s.collision_damping) else vel.1
  let py := if s.half_bounds_size.2 < |pos.2|
    then s.half_bounds_size.2 * rsignum pos.2 else pos.2
  let vy := if s.half_bounds_size.2 < |pos.2|
    then vel.2 * (-1 * s.collision_damping) else vel.2
  ((px, py), (vx, vy))

/-- `OFFSETS_2D` (src/spatial_hash.rs:3-13): the 9 Moore-neighborhood cell
offsets, in source order. -/
def OFFSETS_2D : List (ℤ × ℤ) :=
  [(-1, 1), (0, 1), (1, 1), (-1, 0), (0, 0), (1, 0), (-1, -1), (0, -1), (1, -1)]

/-- Column count of the region grid after `update_regions` (src/sim.rs:219-221):
`cols = (width / smoothing_radius) as usize + 1` with `width = half_bounds.x * 2`. -/
def region_cols (s : Sim) : ℕ :=
  rustAsUsize (s.half_bounds_size.1 * 2 / s.smoothing_radius) + 1

/-- Row count of the region grid after `update_regions` (src/sim.rs:220-222). -/
def region_rows (s : Sim) : ℕ :=
  rustAsUsize (s.half_bounds_size.2 * 2 / s.smoothing_radius) + 1

/-- The column a particle is bucketed into by `update_regions`
(src/sim.rs:245-254): `((x - left) / smoothing_radius) as usize`, then
`.clamp(0, cols - 1)`. -/
def build_col (s : Sim) (i : ℕ) : ℕ :=
  min (rustAsUsize (((s.positions i).1 - (-s.half_bounds_size.1)) / s.smoothing_radius))
    (region_cols s - 1)

/-- The row a particle is bucketed into by `update_regions` (src/sim.rs:245-254). -/
def build_row (s : Sim) (i : ℕ) : ℕ :=
  min (rustAsUsize (((s.positions i).2 - (-s.half_bounds_size.2)) / s.smoothing_radius))
    (region_rows s - 1)

/-- Contents of region bucket (r, c) after `update_regions`: the particle ids
pushed into that cell, in id order (src/sim.rs:247-255). -/
def region_bucket (s : Sim) (r c : ℕ) : List ℕ :=
  (List.range s.num_particles).filter fun i => build_row s i == r && build_col s i == c

/-- The cell column used by the neighbor scans in `density` and
`pressure_force` (src/sim.rs:292-293, 469-470): same formula as the build,
but without the clamp. -/
def scan_col (s : Sim) (id : ℕ) : ℕ :=
  rustAsUsize (((s.positions id).1 - (-s.half_bounds_size.1)) / s.smoothing_radius)

/-- The cell row used by the neighbor scans (src/sim.rs:292, 469). -/
def scan_row (s : Sim) (id : ℕ) : ℕ :=
  rustAsUsize (((s.positions id).2 - (-s.half_bounds_size.2)) / s.smoothing_radius)

/-- The particle ids visited by the 3x3 region scan shared by `density`
(src/sim.rs:295-313) and `pressure_force` (src/sim.rs:472-504): for each of
the nine offsets, if the offset cell is inside the grid, its bucket members
other than `id` itself, in iteration order. -/
def scan_neighbors (s : Sim) (id : ℕ) : List ℕ :=
  OFFSETS_2D.flatMap fun off =>
    if 0 ≤ (scan_row s id : ℤ) + off.1 ∧ 0 ≤ (scan_col s id : ℤ) + off.2 ∧
        (scan_row s id : ℤ) + off.1 < (region_rows s : ℤ) ∧
        (scan_col s id : ℤ) + off.2 < (region_cols s : ℤ) then
      (region_bucket s ((scan_row s id : ℤ) + off.1).toNat
        ((scan_col s id : ℤ) + off.2).toNat).filter fun j => j != id
    else []

/-- The scan-visited neighbors of `id` that pass the
`distance < smoothing_radius` cutoff of `pressure_force` (src/sim.rs:485-488);
`len` is the Euclidean-length oracle. -/
def scan_neighbors_within (s : Sim) (len : Vec2 → ℚ) (id : ℕ) : List ℕ :=
  (scan_neighbors s id).filter fun j =>
    decide (len (s.positions j - s.positions id) < s.smoothing_radius)

/-- Brute-force O(N^2) neighbor enumeration: all `j ≠ id` with
`|pos_j - pos_id| < smoothing_radius` (the reference set of the spec's
Spatial-Index completeness property). -/
def brute_force_neighbors (s : Sim) (len : Vec2 → ℚ) (id : ℕ) : Finset ℕ :=
  (Finset.range s.num_particles).filter fun j =>
    j ≠ id ∧ len (s.positions j - s.positions id) < s.smoothing_radius

/-- `Simulation::density` (src/sim.rs:286-315): seeded with 1.0, adds
`smoothing_kernel` of the epsilon-floored distance over the scanned
neighbors, and returns the same value for both tuple components. -/
def density_tick (s : Sim) (len : Vec2 → ℚ) (id : ℕ) : ℚ × ℚ :=
  let density :=
    (scan_neighbors s id).foldl
      (fun acc j =>
        acc + smoothing_kernel s
          (max (len (s.positions j - s.positions id)) (1 / 1000000000)))
      1
  (density, density)

/-- The spec's near-density: the sum, over the same scanned neighbor set,
of the spiky pow3 kernel of the neighbor distance (spec 4.3, for comparison
with the code's `density`). -/
def near_density_from_spec (s : Sim) (len : Vec2 → ℚ) (id : ℕ) : ℚ :=
  (scan_neighbors s id).foldl
    (fun acc j => acc + spiky_kernel_pow3 s (len (s.positions j - s.positions id)))
    0

/-- The contribution one scanned neighbor adds to the pressure-force
accumulator, from the loop body of `pressure_force` (src/sim.rs:480-502):
nothing at or beyond the smoothing radius, a randomized center-biased push
at exactly zero distance (`rnd` models `Vec2::new(random - 0.5, random - 0.5)`),
otherwise `direction * slope * shared_pressure / density_j`. -/
def pressure_force_term (s : Sim) (position : Vec2) (density : ℚ)
    (posJ : Vec2) (densityJ : ℚ) (d : ℚ) (rnd : Vec2) : Vec2 :=
  let off := posJ - position
  if s.smoothing_radius ≤ d then 0
  else if d = 0 then s.particle_size • (rnd + (0 - position))
  else
    let direction := (1 / d) • off
    let slope := smoothing_kernel_derivative s d
    let pressure := shared_pressure s density densityJ
    (slope * pressure / densityJ) • direction

/-- `Simulation::pressure_force` (src/sim.rs:462-508): accumulates
`pressure_force_term` over the scanned neighbors; `len` is the
Euclidean-length oracle and `rnd` the randomness oracle. -/
def pressure_force (s : Sim) (len : Vec2 → ℚ) (rnd : ℕ → Vec2) (id : ℕ) : Vec2 :=
  (scan_neighbors s id).foldl
    (fun gradient j =>
      gradient + pressure_force_term s (s.positions id) (s.densities id).1
        (s.positions j) (s.densities j).1
        (len (s.positions j - s.positions id)) (rnd j))
    0

/-- `Simulation::external_forces` (src/sim.rs:641-661). Note: when the
position equals the interaction point the code divides the offset by
`dst = 0`. -/
def external_forces (s : Sim) (len : Vec2 → ℚ) (pos velocity : Vec2) : Vec2 :=
  if s.interaction_input_strength ≠ 0 then
    let input_point_offset := s.interaction_input_point - pos
    let sqr_dst := dot input_point_offset input_point_offset
    if sqr_dst < s.interaction_input_radius * s.interaction_input_radius then
      let dst := len input_point_offset
      let edge_t := dst / s.interaction_input_radius
      let centre_t := 1 - edge_t
      let dir_to_centre := (1 / dst) • input_point_offset
      let gravity_weight :=
        1 - centre_t * min (max (s.interaction_input_strength / 10) 0) 1
      let accel := gravity_weight • s.gravity +
        (centre_t * s.interaction_input_strength) • dir_to_centre -
        centre_t • velocity
      s.scale • accel
    else s.scale • s.gravity
  else s.scale • s.gravity

/-- `Vec2::clamp_length_max` from the game math library, as used at
src/sim.rs:332: if the squared length exceeds `m^2`, rescale to length `m`
(`len` is the vector's Euclidean length, supplied by the oracle). -/
def clamp_length_max (v : Vec2) (len m : ℚ) : Vec2 :=
  if m * m < dot v v then (m / len) • v else v

/-- `Simulation::calculate_pressure` (src/sim.rs:324-342): one
velocity-integration step for particle `id`. -/
def calculate_pressure (s : Sim) (len : Vec2 → ℚ) (rnd : ℕ → Vec2)
    (id : ℕ) (delta : ℚ) : Vec2 :=
  let velocity := s.velocities id
  let pf := delta • pressure_force s len rnd id
  let gravity_force := delta • external_forces s len (s.positions id) velocity
  if s.use_inertia then
    if s.use_viscosity then
      clamp_length_max (velocity + pf) (len (velocity + pf))
        (s.speed_limit * s.particle_size * delta) + gravity_force
    else velocity + pf + gravity_force
  else pf + gravity_force

/-- A Euclidean-length oracle that is exact on axis-aligned vectors;
used to instantiate concrete configurations. -/
def axisLen (v : Vec2) : ℚ :=
  if v.2 = 0 then |v.1| else if v.1 = 0 then |v.2| else 0

/-- A small concrete simulation state: one particle at the origin,
smoothing radius 1, box half-extent (2, 2), every scaling factor equal to
its defining formula at radius 1. -/
def baseSim : Sim where
  num_particles := 1
  smoothing_radius := 1
  smoothing_scaling_factor := 6 / pi32
  smoothing_derivative_scaling_factor := pi32 / 6
  particle_size := 1 / 10
  scale := 1
  half_bounds_size := (2, 2)
  gravity := (0, -3 / 2)
  target_density := 3 / 2
  pressure_multiplier := 1000
  near_pressure_multiplier := 25
  speed_limit := 50
  collision_damping := 1 / 2
  interaction_input_strength := 0
  interaction_input_radius := 3
  interaction_input_point := (0, 0)
  positions := fun _ => (0, 0)
  velocities := fun _ => (0, 0)
  densities := fun _ => (1, 1)
  poly6_scaling_factor := 4 / pi32
  spiky_pow3_scaling_factor := 10 / pi32
  spiky_pow2_scaling_factor := 6 / pi32
  spiky_pow3_derivative_scaling_factor := 30 / pi32
  spiky_pow2_derivative_scaling_factor := 12 / pi32
  use_inertia := true
  use_viscosity := true

/-- Three collinear particles with smoothing radius 1: particles 0 and 1
are within radius of each other (distance 1/2), particle 2 is at distance 1
from particle 0 (at the cutoff) and 1/2 from particle 1, so the per-tick
densities of particles 0 and 1 differ. -/
def threeSim : Sim :=
  { baseSim with
    num_particles := 3
    target_density := 0
    positions := fun i => if i = 0 then (0, 0) else if i = 1 then (1 / 2, 0) else (1, 0) }

/-- `threeSim` after the per-tick density pass (`calculate_densities`,
src/sim.rs:258-262, which stores `density(i)` for every particle). -/
def threeSimD : Sim :=
  { threeSim with densities := fun i => density_tick threeSim axisLen i }

/-- `baseSim` with a strong downward gravity and a small speed cap, used to
exercise the viscosity clamp. -/
def clampSim : Sim :=
  { baseSim with gravity := (0, -10), speed_limit := 1, particle_size := 1 }

/-- `baseSim` with an active mouse interaction whose point coincides with
the position of particle 0. -/
def interactSim : Sim :=
  { baseSim with interaction_input_strength := 200 }

/-- Three collinear particles with radius 1: particle 1 is a true neighbor
of 0; particle 2 sits in an adjacent cell but exactly at the cutoff
distance, so both the scan and the brute force reject it. -/
def gridSim : Sim :=
  { baseSim with
    num_particles := 3
    positions := fun i =>
      if i = 0 then (0, 0) else if i = 1 then (1 / 2, 0) else (-1, 0) }

/-- The interaction branch of `external_forces` (src/sim.rs:643-657) is
entered (`interaction_input_strength != 0` and the squared offset is inside
the squared interaction radius) while the offset that the code divides by
its own length `dst` is the zero vector, i.e. `dst = sqrt 0 = 0`. -/
def external_forces_zero_division (s : Sim) (pos : Vec2) : Prop :=
  s.interaction_input_strength ≠ 0 ∧
  dot (s.interaction_input_point - pos) (s.interaction_input_point - pos)
    < s.interaction_input_radius * s.interaction_input_radius ∧
  s.interaction_input_point - pos = 0

/-- Helper: `|a * rsignum q| = a` for non-negative `a`. -/
lemma abs_mul_rsignum (a q : ℚ) (ha : 0 ≤ a) : |a * rsignum q| = a := by
  unfold rsignum
  split <;> rw [abs_mul] <;> simp [abs_of_nonneg ha]

/-- Claim C3: every kernel value function and every kernel derivative
function of the simulation returns exactly 0 at any distance greater than
or equal to the (positive) smoothing radius. -/
theorem kernels_compact_support (s : Sim) (d : ℚ)
    (hpos : 0 < s.smoothing_radius) (hd : s.smoothing_radius ≤ d) :
    smoothing_kernel s d = 0 ∧ smoothing_kernel_derivative s d = 0 ∧
    smoothing_kernel_poly6 s d = 0 ∧ spiky_kernel_pow3 s d = 0 ∧
    spiky_kernel_pow2 s d = 0 ∧ derivative_spiky_pow3 s d = 0 ∧
    derivative_spiky_pow2 s d = 0 := by
  refine ⟨?_, ?_, ?_, ?_, ?_, ?_, ?_⟩ <;>
    simp [smoothing_kernel, smoothing_kernel_derivative, smoothing_kernel_poly6,
      spiky_kernel_pow3, spiky_kernel_pow2, derivative_spiky_pow3,
      derivative_spiky_pow2, hd, not_lt.mpr hd]

/-- Witness for C3 at a concrete state and distance. -/
theorem kernels_compact_support_witness :
    (0 < baseSim.smoothing_radius ∧ baseSim.smoothing_radius ≤ 2) ∧
    (smoothing_kernel baseSim 2 = 0 ∧ smoothing_kernel_derivative baseSim 2 = 0 ∧
      smoothing_kernel_poly6 baseSim 2 = 0 ∧ spiky_kernel_pow3 baseSim 2 = 0 ∧
      spiky_kernel_pow2 baseSim 2 = 0 ∧ derivative_spiky_pow3 baseSim 2 = 0 ∧
      derivative_spiky_pow2 baseSim 2 = 0) :=
  ⟨⟨by norm_num [baseSim], by norm_num [baseSim]⟩,
   kernels_compact_support baseSim 2 (by norm_num [baseSim]) (by norm_num [baseSim])⟩

/-- Claim C4 (amended): the per-tick density estimator `density` returns a
tuple whose second (near-density) component is identical to its first
(density) component; it does not compute a spiky-pow3 near-density. -/
theorem density_tick_near_equals_density (s : Sim) (len : Vec2 → ℚ) (id : ℕ) :
    (density_tick s len id).2 = (density_tick s len id).1 := rfl

/-- Counterexample to claim C4 as stated: for a single particle the
per-tick near-density component is 1 (the self seed of the smoothing-kernel
density) while the spec's spiky-pow3 sum over the same (empty) neighbor set
is 0. -/
theorem density_tick_near_not_spiky_pow3 :
    (density_tick baseSim axisLen 0).2 = 1 ∧
    near_density_from_spec baseSim axisLen 0 = 0 ∧
    (density_tick baseSim axisLen 0).2 ≠ near_density_from_spec baseSim axisLen 0 := by
  have hs : scan_neighbors baseSim 0 = [] := by
    norm_num [scan_neighbors, OFFSETS_2D, region_bucket, region_rows, region_cols,
      scan_row, scan_col, build_row, build_col, rustAsUsize, baseSim,
      List.flatMap, List.range_succ, List.filter]
  have h1 : (density_tick baseSim axisLen 0).2 = 1 := by
    simp [density_tick, hs]
  have h2 : near_density_from_spec baseSim axisLen 0 = 0 := by
    simp [near_density_from_spec, hs]
  exact ⟨h1, h2, by rw [h1, h2]; norm_num⟩

/-- Claim C5: collision resolution leaves both position components inside
the (non-negative) half bounds; a component that exceeded its bound is
clamped to exactly the bound times its sign while the matching velocity
component is multiplied by `-collision_damping`, the two axes being handled
independently. -/
theorem resolve_collisions_spec (s : Sim) (pos vel : Vec2)
    (hbx : 0 ≤ s.half_bounds_size.1) (hby : 0 ≤ s.half_bounds_size.2) :
    |(resolve_collisions s pos vel).1.1| ≤ s.half_bounds_size.1 ∧
    |(resolve_collisions s pos vel).1.2| ≤ s.half_bounds_size.2 ∧
    (s.half_bounds_size.1 < |pos.1| →
      (resolve_collisions s pos vel).1.1 = s.half_bounds_size.1 * rsignum pos.1 ∧
      (resolve_collisions s pos vel).2.1 = vel.1 * (-1 * s.collision_damping)) ∧
    (s.half_bounds_size.2 < |pos.2| →
      (resolve_collisions s pos vel).1.2 = s.half_bounds_size.2 * rsignum pos.2 ∧
      (resolve_collisions s pos vel).2.2 = vel.2 * (-1 * s.collision_damping)) := by
  unfold resolve_collisions
  refine ⟨?_, ?_, fun hx => ⟨?_, ?_⟩, fun hy => ⟨?_, ?_⟩⟩ <;> dsimp only
  · split
    case isTrue hx => rw [abs_mul_rsignum _ _ hbx]
    case isFalse hx => exact le_of_not_lt hx
  · split
    case isTrue hy => rw [abs_mul_rsignum _ _ hby]
    case isFalse hy => exact le_of_not_lt hy
  · rw [if_pos hx]
  · rw [if_pos hx]
  · rw [if_pos hy]
  · rw [if_pos hy]

/-- Witness for C5: a particle integrated to (5, -7) in the box with half
bounds (2, 2) is clamped on both axes and both velocity components are
reflected and damped. -/
theorem resolve_collisions_spec_witness :
    (0 ≤ baseSim.half_bounds_size.1 ∧ 0 ≤ baseSim.half_bounds_size.2) ∧
    (|(resolve_collisions baseSim (5, -7) (1, 1)).1.1| ≤ baseSim.half_bounds_size.1 ∧
     |(resolve_collisions baseSim (5, -7) (1, 1)).1.2| ≤ baseSim.half_bounds_size.2 ∧
     (baseSim.half_bounds_size.1 < |(5 : ℚ)| →
       (resolve_collisions baseSim (5, -7) (1, 1)).1.1
         = baseSim.half_bounds_size.1 * rsignum 5 ∧
       (resolve_collisions baseSim (5, -7) (1, 1)).2.1
         = 1 * (-1 * baseSim.collision_damping)) ∧
     (baseSim.half_bounds_size.2 < |(-7 : ℚ)| →
       (resolve_collisions baseSim (5, -7) (1, 1)).1.2
         = baseSim.half_bounds_size.2 * rsignum (-7) ∧
       (resolve_collisions baseSim (5, -7) (1, 1)).2.2
         = 1 * (-1 * baseSim.collision_damping))) :=
  ⟨⟨by norm_num [baseSim], by norm_num [baseSim]⟩,
   resolve_collisions_spec baseSim (5, -7) (1, 1)
     (by norm_num [baseSim]) (by norm_num [baseSim])⟩

/-- Claim C6 (amended): `adj_smoothing_radius` recomputes the two smoothing
scaling factors from their defining formulas at the new radius, and leaves
the five sfs-family scaling constants (poly6, spiky pow2/pow3 and their
derivatives) untouched at their previous values. -/
theorem adj_smoothing_radius_scaling_factors (s : Sim) (increment : ℚ) :
    (adj_smoothing_radius s increment).smoothing_scaling_factor
      = smoothing_scaling_formula (adj_smoothing_radius s increment).smoothing_radius ∧
    (adj_smoothing_radius s increment).smoothing_derivative_scaling_factor
      = smoothing_derivative_scaling_formula
          (adj_smoothing_radius s increment).smoothing_radius ∧
    (adj_smoothing_radius s increment).poly6_scaling_factor = s.poly6_scaling_factor ∧
    (adj_smoothing_radius s increment).spiky_pow3_scaling_factor
      = s.spiky_pow3_scaling_factor ∧
    (adj_smoothing_radius s increment).spiky_pow2_scaling_factor
      = s.spiky_pow2_scaling_factor ∧
    (adj_smoothing_radius s increment).spiky_pow3_derivative_scaling_factor
      = s.spiky_pow3_derivative_scaling_factor ∧
    (adj_smoothing_radius s increment).spiky_pow2_derivative_scaling_factor
      = s.spiky_pow2_derivative_scaling_factor :=
  ⟨rfl, rfl, rfl, rfl, rfl, rfl, rfl⟩

/-- Counterexample to claim C6 as stated: starting from a state whose
constants all satisfy their formulas at radius 1, one `adj_smoothing_radius`
call moves the radius to 2 but leaves `poly6_scaling_factor` at its old
value, different from its formula at the new radius (and likewise the other
four sfs constants). -/
theorem adj_smoothing_radius_stale_constants :
    baseSim.poly6_scaling_factor = poly6_scaling_formula baseSim.smoothing_radius ∧
    (adj_smoothing_radius baseSim 1).smoothing_radius = 2 ∧
    (adj_smoothing_radius baseSim 1).poly6_scaling_factor
      ≠ poly6_scaling_formula (adj_smoothing_radius baseSim 1).smoothing_radius ∧
    (adj_smoothing_radius baseSim 1).spiky_pow3_scaling_factor
      ≠ spiky_pow3_scaling_formula (adj_smoothing_radius baseSim 1).smoothing_radius ∧
    (adj_smoothing_radius baseSim 1).spiky_pow2_scaling_factor
      ≠ spiky_pow2_scaling_formula (adj_smoothing_radius baseSim 1).smoothing_radius ∧
    (adj_smoothing_radius baseSim 1).spiky_pow3_derivative_scaling_factor
      ≠ spiky_pow3_derivative_scaling_formula
          (adj_smoothing_radius baseSim 1).smoothing_radius ∧
    (adj_smoothing_radius baseSim 1).spiky_pow2_derivative_scaling_factor
      ≠ spiky_pow2_derivative_scaling_formula
          (adj_smoothing_radius baseSim 1).smoothing_radius := by
  have hr : (adj_smoothing_radius baseSim 1).smoothing_radius = 2 := by
    norm_num [adj_smoothing_radius, baseSim]
  refine ⟨?_, hr, ?_, ?_, ?_, ?_, ?_⟩ <;>
    norm_num [hr, adj_smoothing_radius, baseSim, pi32, poly6_scaling_formula,
      spiky_pow3_scaling_formula, spiky_pow2_scaling_formula,
      spiky_pow3_derivative_scaling_formula, spiky_pow2_derivative_scaling_formula]

/-- Claim C9: `adj_smoothing_radius` sets the radius to
`max (previous + increment) |increment|`, so for any nonzero increment the
resulting radius is strictly positive. -/
theorem adj_smoothing_radius_stays_positive (s : Sim) (increment : ℚ) :
    (adj_smoothing_radius s increment).smoothing_radius
      = max (s.smoothing_radius + increment) |increment| ∧
    (increment ≠ 0 → 0 < (adj_smoothing_radius s increment).smoothing_radius) := by
  refine ⟨rfl, fun h => ?_⟩
  have habs : (0 : ℚ) < |increment| := abs_pos.mpr h
  calc (0 : ℚ) < |increment| := habs
    _ ≤ max (s.smoothing_radius + increment) |increment| := le_max_right _ _

/-- Witness for C9: decrementing the radius 1 by 3/2 yields radius 3/2, not
a non-positive value. -/
theorem adj_smoothing_radius_stays_positive_witness :
    (adj_smoothing_radius baseSim (-3 / 2)).smoothing_radius
      = max (baseSim.smoothing_radius + (-3 / 2)) |(-3 / 2 : ℚ)| ∧
    0 < (adj_smoothing_radius baseSim (-3 / 2)).smoothing_radius :=
  ⟨(adj_smoothing_radius_stays_positive baseSim (-3 / 2)).1,
   (adj_smoothing_radius_stays_positive baseSim (-3 / 2)).2 (by norm_num)⟩

/-- Claim C10: `adj_gravity` leaves the x component of gravity unchanged,
sets the y component to `min (previous + increment) 0`, and therefore the y
component is never positive after any adjustment. -/
theorem adj_gravity_never_upward (s : Sim) (increment : ℚ) :
    (adj_gravity s increment).gravity.1 = s.gravity.1 ∧
    (adj_gravity s increment).gravity.2 = min (s.gravity.2 + increment) 0 ∧
    (adj_gravity s increment).gravity.2 ≤ 0 :=
  ⟨rfl, rfl, min_le_right _ _⟩

/-- Claim C1 (amended): the pairwise accumulator contributions of
`pressure_force` are antisymmetric only after weighting each contribution
by the neighbor density it divides by: `dj • c(i,j) = -(di • c(j,i))`; the
plain negation `c(i,j) = -c(j,i)` holds when the two densities are equal. -/
theorem pressure_force_term_weighted_antisym (s : Sim) (p q : Vec2)
    (di dj d : ℚ) (rnd rnd2 : Vec2)
    (hd0 : 0 < d) (hdd : d * d = dot (q - p) (q - p))
    (hdh : d < s.smoothing_radius) (hdi : di ≠ 0) (hdj : dj ≠ 0) :
    dj • pressure_force_term s p di q dj d rnd
      = -(di • pressure_force_term s q dj p di d rnd2) ∧
    (di = dj → pressure_force_term s p di q dj d rnd
      = -(pressure_force_term s q dj p di d rnd2)) := by
  have hnle : ¬ s.smoothing_radius ≤ d := not_le.mpr hdh
  have hne : d ≠ 0 := ne_of_gt hd0
  have hmain : dj • pressure_force_term s p di q dj d rnd
      = -(di • pressure_force_term s q dj p di d rnd2) := by
    unfold pressure_force_term
    rw [if_neg hnle, if_neg hnle, if_neg hne, if_neg hne]
    rw [Prod.ext_iff]
    constructor <;>
      · simp only [Prod.smul_fst, Prod.smul_snd, Prod.fst_sub, Prod.snd_sub,
          Prod.fst_neg, Prod.snd_neg, smul_eq_mul, shared_pressure]
        field_simp
        ring
  refine ⟨hmain, fun hdidj => ?_⟩
  subst hdidj
  refine smul_right_injective Vec2 hdi ?_
  show di • pressure_force_term s p di q di d rnd
    = di • -pressure_force_term s q di p di d rnd2
  rw [smul_neg]
  exact hmain

/-- Witness for the amended C1 at a concrete pair with unequal densities. -/
theorem pressure_force_term_weighted_antisym_witness :
    (2 : ℚ) • pressure_force_term baseSim (0, 0) 1 (1 / 2, 0) 2 (1 / 2) 0
      = -((1 : ℚ) • pressure_force_term baseSim (1 / 2, 0) 2 (0, 0) 1 (1 / 2) 0) ∧
    ((1 : ℚ) = 2 →
      pressure_force_term baseSim (0, 0) 1 (1 / 2, 0) 2 (1 / 2) 0
        = -(pressure_force_term baseSim (1 / 2, 0) 2 (0, 0) 1 (1 / 2) 0)) :=
  pressure_force_term_weighted_antisym baseSim (0, 0) (1 / 2, 0) 1 2 (1 / 2) 0 0
    (by norm_num) (by norm_num [dot, Prod.mk_sub_mk]) (by norm_num [baseSim])
    (by norm_num) (by norm_num)

/-- The 3x3 scan of particle 0 in `threeSim` visits particle 2 (adjacent
cell) before particle 1 (own cell). -/
lemma scan_neighbors_threeSim_zero : scan_neighbors threeSim 0 = [2, 1] := by
  norm_num [scan_neighbors, OFFSETS_2D, region_bucket, region_rows, region_cols,
    scan_row, scan_col, build_row, build_col, rustAsUsize, threeSim, baseSim,
    List.flatMap, List.range_succ, List.filter]
  decide

/-- The 3x3 scan of particle 1 in `threeSim`. -/
lemma scan_neighbors_threeSim_one : scan_neighbors threeSim 1 = [2, 0] := by
  norm_num [scan_neighbors, OFFSETS_2D, region_bucket, region_rows, region_cols,
    scan_row, scan_col, build_row, build_col, rustAsUsize, threeSim, baseSim,
    List.flatMap, List.range_succ, List.filter]
  decide

/-- Per-tick density of particle 0 of `threeSim`: 1 + W(1) + W(1/2)
with W the smoothing kernel at radius 1 (W(1) = 0). -/
lemma threeSim_density_zero :
    (density_tick threeSim axisLen 0).1 = 6489417 / 4392265 := by
  rw [density_tick, scan_neighbors_threeSim_zero]
  have e2 : axisLen (threeSim.positions 2 - threeSim.positions 0) = 1 := by
    norm_num [axisLen, threeSim, baseSim, Prod.mk_sub_mk]
  have e1 : axisLen (threeSim.positions 1 - threeSim.positions 0) = 1 / 2 := by
    norm_num [axisLen, threeSim, baseSim, Prod.mk_sub_mk]
  simp only [List.foldl, e1, e2,
    show max (1 : ℚ) (1 / 1000000000) = 1 from max_eq_left (by norm_num),
    show max (1 / 2 : ℚ) (1 / 1000000000) = 1 / 2 from max_eq_left (by norm_num)]
  norm_num [smoothing_kernel, threeSim, baseSim, pi32]

/-- Per-tick density of particle 1 of `threeSim`: 1 + 2 * W(1/2). -/
lemma threeSim_density_one :
    (density_tick threeSim axisLen 1).1 = 8586569 / 4392265 := by
  rw [density_tick, scan_neighbors_threeSim_one]
  have e2 : axisLen (threeSim.positions 2 - threeSim.positions 1) = 1 / 2 := by
    norm_num [axisLen, threeSim, baseSim, Prod.mk_sub_mk]
  have e0 : axisLen (threeSim.positions 0 - threeSim.positions 1) = 1 / 2 := by
    norm_num [axisLen, threeSim, baseSim, Prod.mk_sub_mk]
  simp only [List.foldl, e0, e2,
    show max (1 / 2 : ℚ) (1 / 1000000000) = 1 / 2 from max_eq_left (by norm_num)]
  norm_num [smoothing_kernel, threeSim, baseSim, pi32]

/-- Counterexample to claim C1 as stated: in `threeSimD` (densities as
computed by the tick's density pass) particles 0 and 1 are within the
smoothing radius and each is visited by the other's 3x3 scan, yet the
contribution particle 1 adds to particle 0's pressure-force accumulator is
not the negation of the contribution particle 0 adds to particle 1's. -/
theorem pressure_force_term_not_antisym :
    (1 / 2 : ℚ) < threeSimD.smoothing_radius ∧
    axisLen (threeSimD.positions 1 - threeSimD.positions 0) = 1 / 2 ∧
    1 ∈ scan_neighbors threeSimD 0 ∧ 0 ∈ scan_neighbors threeSimD 1 ∧
    pressure_force_term threeSimD (threeSimD.positions 0) (threeSimD.densities 0).1
        (threeSimD.positions 1) (threeSimD.densities 1).1 (1 / 2) 0
      ≠ -(pressure_force_term threeSimD (threeSimD.positions 1) (threeSimD.densities 1).1
          (threeSimD.positions 0) (threeSimD.densities 0).1 (1 / 2) 0) := by
  have hscan0 : scan_neighbors threeSimD 0 = [2, 1] := scan_neighbors_threeSim_zero
  have hscan1 : scan_neighbors threeSimD 1 = [2, 0] := scan_neighbors_threeSim_one
  have hd0 : (threeSimD.densities 0).1 = 6489417 / 4392265 := threeSim_density_zero
  have hd1 : (threeSimD.densities 1).1 = 8586569 / 4392265 := threeSim_density_one
  refine ⟨by norm_num [threeSimD, threeSim, baseSim], ?_, ?_, ?_, ?_⟩
  · norm_num [axisLen, threeSimD, threeSim, baseSim, Prod.mk_sub_mk]
  · rw [hscan0]; decide
  · rw [hscan1]; decide
  · rw [hd0, hd1]
    norm_num [pressure_force_term, shared_pressure, smoothing_kernel_derivative,
      threeSimD, threeSim, baseSim, pi32, Prod.ext_iff, Prod.mk_sub_mk,
      Prod.smul_fst, Prod.smul_snd, Prod.fst_neg, Prod.snd_neg, smul_eq_mul]

/-- Helper: the clamped vector of `clamp_length_max` has squared length at
most the squared cap. -/
lemma dot_clamp_length_max_le (v : Vec2) (len m : ℚ) (hm : 0 ≤ m)
    (h0 : 0 ≤ len) (hl : len * len = dot v v) :
    dot (clamp_length_max v len m) (clamp_length_max v len m) ≤ m ^ 2 := by
  unfold clamp_length_max
  split_ifs with h
  · have hlen0 : len ≠ 0 := by
      intro hz
      rw [hz, mul_zero] at hl
      rw [← hl] at h
      nlinarith [mul_self_nonneg m]
    have hexp : dot ((m / len) • v) ((m / len) • v)
        = (m / len) * (m / len) * dot v v := by
      simp only [dot, Prod.smul_fst, Prod.smul_snd, smul_eq_mul]
      ring
    refine le_of_eq ?_
    rw [hexp, ← hl]
    field_simp
    ring
  · push_neg at h
    calc dot v v ≤ m * m := h
      _ = m ^ 2 := by ring

/-- Claim C7 (amended): with inertia and viscosity enabled, the velocity
step clamps the squared length of `velocity + pressure_force * delta` to at
most `(speed_limit * particle_size * delta)^2`, and then adds the external
(gravity / interaction) force on top of the clamped vector — so the clamp
caps the pre-gravity velocity, not the returned one. -/
theorem calculate_pressure_clamps_before_gravity (s : Sim) (len : Vec2 → ℚ)
    (rnd : ℕ → Vec2) (id : ℕ) (delta : ℚ)
    (hi : s.use_inertia = true) (hv : s.use_viscosity = true)
    (hm : 0 ≤ s.speed_limit * s.particle_size * delta)
    (h0 : 0 ≤ len (s.velocities id + delta • pressure_force s len rnd id))
    (hl : len (s.velocities id + delta • pressure_force s len rnd id) *
        len (s.velocities id + delta • pressure_force s len rnd id)
      = dot (s.velocities id + delta • pressure_force s len rnd id)
          (s.velocities id + delta • pressure_force s len rnd id)) :
    calculate_pressure s len rnd id delta
      = clamp_length_max (s.velocities id + delta • pressure_force s len rnd id)
          (len (s.velocities id + delta • pressure_force s len rnd id))
          (s.speed_limit * s.particle_size * delta)
        + delta • external_forces s len (s.positions id) (s.velocities id) ∧
    dot (clamp_length_max (s.velocities id + delta • pressure_force s len rnd id)
          (len (s.velocities id + delta • pressure_force s len rnd id))
          (s.speed_limit * s.particle_size * delta))
        (clamp_length_max (s.velocities id + delta • pressure_force s len rnd id)
          (len (s.velocities id + delta • pressure_force s len rnd id))
          (s.speed_limit * s.particle_size * delta))
      ≤ (s.speed_limit * s.particle_size * delta) ^ 2 := by
  constructor
  · simp only [calculate_pressure, hi, hv, if_true]
  · exact dot_clamp_length_max_le _ _ _ hm h0 hl

/-- In `clampSim` the lone particle has no scanned neighbors, so its
pressure force is zero. -/
lemma pressure_force_clampSim :
    pressure_force clampSim axisLen (fun _ => 0) 0 = 0 := by
  have hs : scan_neighbors clampSim 0 = [] := by
    norm_num [scan_neighbors, OFFSETS_2D, region_bucket, region_rows, region_cols,
      scan_row, scan_col, build_row, build_col, rustAsUsize, clampSim, baseSim,
      List.flatMap, List.range_succ, List.filter]
  simp [pressure_force, hs]

/-- Witness for the amended C7 at `clampSim`. -/
theorem calculate_pressure_clamps_before_gravity_witness :
    calculate_pressure clampSim axisLen (fun _ => 0) 0 1
      = clamp_length_max
          (clampSim.velocities 0 + (1 : ℚ) • pressure_force clampSim axisLen (fun _ => 0) 0)
          (axisLen (clampSim.velocities 0 + (1 : ℚ) • pressure_force clampSim axisLen (fun _ => 0) 0))
          (clampSim.speed_limit * clampSim.particle_size * 1)
        + (1 : ℚ) • external_forces clampSim axisLen (clampSim.positions 0) (clampSim.velocities 0) ∧
    dot (clamp_length_max
          (clampSim.velocities 0 + (1 : ℚ) • pressure_force clampSim axisLen (fun _ => 0) 0)
          (axisLen (clampSim.velocities 0 + (1 : ℚ) • pressure_force clampSim axisLen (fun _ => 0) 0))
          (clampSim.speed_limit * clampSim.particle_size * 1))
        (clamp_length_max
          (clampSim.velocities 0 + (1 : ℚ) • pressure_force clampSim axisLen (fun _ => 0) 0)
          (axisLen (clampSim.velocities 0 + (1 : ℚ) • pressure_force clampSim axisLen (fun _ => 0) 0))
          (clampSim.speed_limit * clampSim.particle_size * 1))
      ≤ (clampSim.speed_limit * clampSim.particle_size * 1) ^ 2 :=
  calculate_pressure_clamps_before_gravity clampSim axisLen (fun _ => 0) 0 1 rfl rfl
    (by norm_num [clampSim, baseSim])
    (by rw [pressure_force_clampSim]; norm_num [clampSim, baseSim, axisLen])
    (by rw [pressure_force_clampSim]; norm_num [clampSim, baseSim, axisLen, dot])

/-- Counterexample to claim C7 as stated: in `clampSim` (inertia and
viscosity on, speed cap `1 * 1 * 1 = 1`) the velocity returned by the
integration step is (0, -10) — gravity is added after the clamp — whose
squared length 100 exceeds the squared cap 1. -/
theorem calculate_pressure_exceeds_speed_cap :
    clampSim.use_inertia = true ∧ clampSim.use_viscosity = true ∧
    calculate_pressure clampSim axisLen (fun _ => 0) 0 1 = (0, -10) ∧
    ¬ dot (calculate_pressure clampSim axisLen (fun _ => 0) 0 1)
        (calculate_pressure clampSim axisLen (fun _ => 0) 0 1)
      ≤ (clampSim.speed_limit * clampSim.particle_size * 1) ^ 2 := by
  have hcp : calculate_pressure clampSim axisLen (fun _ => 0) 0 1 = (0, -10) := by
    simp only [calculate_pressure, pressure_force_clampSim]
    norm_num [clampSim, baseSim, external_forces, clamp_length_max, dot, axisLen,
      Prod.ext_iff]
  refine ⟨rfl, rfl, hcp, ?_⟩
  rw [hcp]
  norm_num [dot, clampSim, baseSim]

/-- Claim C8: with the mouse interaction active and particle 0 exactly at
the interaction point, `external_forces` enters the interaction branch and
divides the zero offset by its own length 0 — the unguarded numeric edge
case that produces NaN in the 32-bit float implementation. -/
theorem external_forces_divides_by_zero_at_input_point :
    external_forces_zero_division interactSim (interactSim.positions 0) := by
  unfold external_forces_zero_division
  refine ⟨by norm_num [interactSim, baseSim], ?_, ?_⟩
  · norm_num [interactSim, baseSim, dot, Prod.mk_sub_mk]
  · norm_num [interactSim, baseSim, Prod.ext_iff, Prod.mk_sub_mk]

/-- Helper: the `as usize` cast of a rational with non-negative floor,
viewed back in `ℤ`, is the floor itself. -/
lemma rustAsUsize_cast (q : ℚ) (h : 0 ≤ ⌊q⌋) : (rustAsUsize q : ℤ) = ⌊q⌋ := by
  unfold rustAsUsize
  exact Int.toNat_of_nonneg h

/-- Helper: a coordinate within the half bounds has a non-negative cell
index before the cast. -/
lemma cell_floor_nonneg (x hb h : ℚ) (hh : 0 < h) (hx : |x| ≤ hb) :
    0 ≤ ⌊(x - -hb) / h⌋ := by
  apply Int.floor_nonneg.mpr
  apply div_nonneg _ hh.le
  have := abs_le.mp hx
  linarith [this.1]

/-- Helper: a coordinate within the half bounds lands at most at the last
cell index of the grid. -/
lemma cell_floor_le (x hb h : ℚ) (hh : 0 < h) (hx : |x| ≤ hb) :
    ⌊(x - -hb) / h⌋ ≤ ⌊hb * 2 / h⌋ := by
  apply Int.floor_le_floor
  apply div_le_div_of_nonneg_right _ hh.le
  have := abs_le.mp hx
  linarith [this.2]

/-- Helper: cells of two coordinates less than one radius apart are
adjacent (cell indices differ by at most 1). -/
lemma floor_cell_adjacent (x y hb h : ℚ) (hh : 0 < h) (hxy : |x - y| < h) :
    |⌊(x - -hb) / h⌋ - ⌊(y - -hb) / h⌋| ≤ 1 := by
  have huv : |(x - -hb) / h - (y - -hb) / h| < 1 := by
    rw [div_sub_div_same, show x - -hb - (y - -hb) = x - y by ring,
      abs_div, abs_of_pos hh, div_lt_one hh]
    exact hxy
  obtain ⟨h1, h2⟩ := abs_lt.mp huv
  have hu : ⌊(x - -hb) / h⌋ ≤ ⌊(y - -hb) / h⌋ + 1 := by
    rw [← Int.floor_add_one]
    exact Int.floor_le_floor (by linarith)
  have hv : ⌊(y - -hb) / h⌋ ≤ ⌊(x - -hb) / h⌋ + 1 := by
    rw [← Int.floor_add_one]
    exact Int.floor_le_floor (by linarith)
  rw [abs_le]
  omega

/-- Helper: a vector of Euclidean length below `h` has both components
below `h` in absolute value. -/
lemma abs_components_lt (v : Vec2) (lenv h : ℚ) (hh : 0 < h) (h0 : 0 ≤ lenv)
    (hl : lenv * lenv = dot v v) (hlt : lenv < h) : |v.1| < h ∧ |v.2| < h := by
  have hd : dot v v = v.1 * v.1 + v.2 * v.2 := rfl
  rw [hd] at hl
  constructor
  · have h1 : v.1 ^ 2 < h ^ 2 := by
      nlinarith [mul_self_nonneg v.2, mul_pos (sub_pos.mpr hlt) (by linarith : (0 : ℚ) < h + lenv)]
    exact abs_lt_of_sq_lt_sq h1 hh.le
  · have h2 : v.2 ^ 2 < h ^ 2 := by
      nlinarith [mul_self_nonneg v.1, mul_pos (sub_pos.mpr hlt) (by linarith : (0 : ℚ) < h + lenv)]
    exact abs_lt_of_sq_lt_sq h2 hh.le

/-- Helper: every offset pair with both components in {-1, 0, 1} is listed
in `OFFSETS_2D`. -/
lemma mem_OFFSETS_2D (a b : ℤ) (ha : |a| ≤ 1) (hb : |b| ≤ 1) :
    (a, b) ∈ OFFSETS_2D := by
  rw [abs_le] at ha hb
  obtain ⟨ha1, ha2⟩ := ha
  obtain ⟨hb1, hb2⟩ := hb
  interval_cases a <;> interval_cases b <;> decide

/-- Helper: membership in the scanned neighbor list, characterized: `j` is
a particle other than `id` whose build cell is one of the nine in-grid
Moore-neighborhood cells around the scan cell of `id`. -/
lemma mem_scan_neighbors (s : Sim) (id j : ℕ) :
    j ∈ scan_neighbors s id ↔
      j ≠ id ∧ j < s.num_particles ∧
      ∃ off ∈ OFFSETS_2D,
        (0 ≤ (scan_row s id : ℤ) + off.1 ∧ 0 ≤ (scan_col s id : ℤ) + off.2 ∧
          (scan_row s id : ℤ) + off.1 < (region_rows s : ℤ) ∧
          (scan_col s id : ℤ) + off.2 < (region_cols s : ℤ)) ∧
        build_row s j = ((scan_row s id : ℤ) + off.1).toNat ∧
        build_col s j = ((scan_col s id : ℤ) + off.2).toNat := by
  unfold scan_neighbors
  rw [List.mem_flatMap]
  constructor
  · rintro ⟨off, hoff, hj⟩
    by_cases hc : 0 ≤ (scan_row s id : ℤ) + off.1 ∧ 0 ≤ (scan_col s id : ℤ) + off.2 ∧
        (scan_row s id : ℤ) + off.1 < (region_rows s : ℤ) ∧
        (scan_col s id : ℤ) + off.2 < (region_cols s : ℤ)
    · rw [if_pos hc, List.mem_filter] at hj
      obtain ⟨hmem, hne⟩ := hj
      unfold region_bucket at hmem
      rw [List.mem_filter] at hmem
      obtain ⟨hrange, hcells⟩ := hmem
      rw [List.mem_range] at hrange
      simp only [Bool.and_eq_true, beq_iff_eq] at hcells
      exact ⟨by simpa using hne, hrange, off, hoff, hc, hcells.1, hcells.2⟩
    · rw [if_neg hc] at hj
      exact absurd hj (List.not_mem_nil j)
  · rintro ⟨hne, hlt, off, hoff, hc, hr, hcc⟩
    refine ⟨off, hoff, ?_⟩
    rw [if_pos hc, List.mem_filter]
    constructor
    · unfold region_bucket
      rw [List.mem_filter, List.mem_range]
      exact ⟨hlt, by simp [hr, hcc]⟩
    · simpa using hne

/-- Helper: in `ℤ`, the grid column count is the last-cell floor plus one. -/
lemma region_cols_cast (s : Sim) (hh : 0 < s.smoothing_radius)
    (hb : 0 ≤ s.half_bounds_size.1) :
    (region_cols s : ℤ) = ⌊s.half_bounds_size.1 * 2 / s.smoothing_radius⌋ + 1 := by
  have h0 : 0 ≤ ⌊s.half_bounds_size.1 * 2 / s.smoothing_radius⌋ :=
    Int.floor_nonneg.mpr (div_nonneg (by linarith) hh.le)
  unfold region_cols
  push_cast [rustAsUsize_cast _ h0]
  ring

/-- Helper: in `ℤ`, the grid row count is the last-cell floor plus one. -/
lemma region_rows_cast (s : Sim) (hh : 0 < s.smoothing_radius)
    (hb : 0 ≤ s.half_bounds_size.2) :
    (region_rows s : ℤ) = ⌊s.half_bounds_size.2 * 2 / s.smoothing_radius⌋ + 1 := by
  have h0 : 0 ≤ ⌊s.half_bounds_size.2 * 2 / s.smoothing_radius⌋ :=
    Int.floor_nonneg.mpr (div_nonneg (by linarith) hh.le)
  unfold region_rows
  push_cast [rustAsUsize_cast _ h0]
  ring

/-- Helper: for an in-bounds particle the scan column is the plain floor. -/
lemma scan_col_cast (s : Sim) (i : ℕ) (hh : 0 < s.smoothing_radius)
    (hx : |(s.positions i).1| ≤ s.half_bounds_size.1) :
    (scan_col s i : ℤ)
      = ⌊((s.positions i).1 - -s.half_bounds_size.1) / s.smoothing_radius⌋ := by
  unfold scan_col
  exact rustAsUsize_cast _ (cell_floor_nonneg _ _ _ hh hx)

/-- Helper: for an in-bounds particle the scan row is the plain floor. -/
lemma scan_row_cast (s : Sim) (i : ℕ) (hh : 0 < s.smoothing_radius)
    (hy : |(s.positions i).2| ≤ s.half_bounds_size.2) :
    (scan_row s i : ℤ)
      = ⌊((s.positions i).2 - -s.half_bounds_size.2) / s.smoothing_radius⌋ := by
  unfold scan_row
  exact rustAsUsize_cast _ (cell_floor_nonneg _ _ _ hh hy)

/-- Helper: for an in-bounds particle the build clamp is a no-op on the
column. -/
lemma build_col_eq_scan_col (s : Sim) (i : ℕ) (hh : 0 < s.smoothing_radius)
    (hx : |(s.positions i).1| ≤ s.half_bounds_size.1) :
    build_col s i = scan_col s i := by
  unfold build_col scan_col region_cols
  rw [Nat.add_sub_cancel]
  apply min_eq_left
  unfold rustAsUsize
  exact Int.toNat_le_toNat (cell_floor_le _ _ _ hh hx)

/-- Helper: for an in-bounds particle the build clamp is a no-op on the
row. -/
lemma build_row_eq_scan_row (s : Sim) (i : ℕ) (hh : 0 < s.smoothing_radius)
    (hy : |(s.positions i).2| ≤ s.half_bounds_size.2) :
    build_row s i = scan_row s i := by
  unfold build_row scan_row region_rows
  rw [Nat.add_sub_cancel]
  apply min_eq_left
  unfold rustAsUsize
  exact Int.toNat_le_toNat (cell_floor_le _ _ _ hh hy)

/-- Claim C2: for in-bounds particle configurations, the filtered 3x3
region-grid scan produces exactly the brute-force neighbor set of every
particle. -/
theorem scan_matches_brute_force (s : Sim) (len : Vec2 → ℚ) (id : ℕ)
    (hh : 0 < s.smoothing_radius)
    (hid : id < s.num_particles)
    (hin : ∀ j, j < s.num_particles →
      |(s.positions j).1| ≤ s.half_bounds_size.1 ∧
      |(s.positions j).2| ≤ s.half_bounds_size.2)
    (hlen : ∀ j, j < s.num_particles →
      0 ≤ len (s.positions j - s.positions id) ∧
      len (s.positions j - s.positions id) * len (s.positions j - s.positions id)
        = dot (s.positions j - s.positions id) (s.positions j - s.positions id)) :
    (scan_neighbors_within s len id).toFinset = brute_force_neighbors s len id := by
  have hbx : 0 ≤ s.half_bounds_size.1 := le_trans (abs_nonneg _) (hin id hid).1
  have hby : 0 ≤ s.half_bounds_size.2 := le_trans (abs_nonneg _) (hin id hid).2
  ext j
  rw [List.mem_toFinset]
  unfold scan_neighbors_within brute_force_neighbors
  rw [List.mem_filter, Finset.mem_filter, Finset.mem_range]
  constructor
  · rintro ⟨hscan, hcut⟩
    have hchar := (mem_scan_neighbors s id j).mp hscan
    exact ⟨hchar.2.1, hchar.1, by simpa using hcut⟩
  · rintro ⟨hjn, hjne, hcut⟩
    refine ⟨(mem_scan_neighbors s id j).mpr ⟨hjne, hjn, ?_⟩, by simpa using hcut⟩
    obtain ⟨hxj, hyj⟩ := hin j hjn
    obtain ⟨hxi, hyi⟩ := hin id hid
    obtain ⟨hl0, hl2⟩ := hlen j hjn
    have hcomp :=
      abs_components_lt (s.positions j - s.positions id) _ _ hh hl0 hl2 hcut
    have hcompx : |(s.positions j).1 - (s.positions id).1| < s.smoothing_radius :=
      hcomp.1
    have hcompy : |(s.positions j).2 - (s.positions id).2| < s.smoothing_radius :=
      hcomp.2
    have hsc := scan_col_cast s id hh hxi
    have hsr := scan_row_cast s id hh hyi
    have hbcj : (build_col s j : ℤ)
        = ⌊((s.positions j).1 - -s.half_bounds_size.1) / s.smoothing_radius⌋ := by
      rw [build_col_eq_scan_col s j hh hxj]
      exact scan_col_cast s j hh hxj
    have hbrj : (build_row s j : ℤ)
        = ⌊((s.positions j).2 - -s.half_bounds_size.2) / s.smoothing_radius⌋ := by
      rw [build_row_eq_scan_row s j hh hyj]
      exact scan_row_cast s j hh hyj
    have hadjc : |(build_col s j : ℤ) - (scan_col s id : ℤ)| ≤ 1 := by
      rw [hbcj, hsc]
      exact floor_cell_adjacent _ _ _ _ hh hcompx
    have hadjr : |(build_row s j : ℤ) - (scan_row s id : ℤ)| ≤ 1 := by
      rw [hbrj, hsr]
      exact floor_cell_adjacent _ _ _ _ hh hcompy
    have hltc : (build_col s j : ℤ) < (region_cols s : ℤ) := by
      rw [hbcj, region_cols_cast s hh hbx]
      have := cell_floor_le ((s.positions j).1) _ _ hh hxj
      omega
    have hltr : (build_row s j : ℤ) < (region_rows s : ℤ) := by
      rw [hbrj, region_rows_cast s hh hby]
      have := cell_floor_le ((s.positions j).2) _ _ hh hyj
      omega
    refine ⟨((build_row s j : ℤ) - (scan_row s id : ℤ),
        (build_col s j : ℤ) - (scan_col s id : ℤ)), ?_, ?_, ?_, ?_⟩
    · exact mem_OFFSETS_2D _ _ hadjr hadjc
    · refine ⟨?_, ?_, ?_, ?_⟩ <;> omega
    · have heq : (scan_row s id : ℤ) + ((build_row s j : ℤ) - (scan_row s id : ℤ))
          = (build_row s j : ℤ) := by ring
      rw [heq, Int.toNat_natCast]
    · have heq : (scan_col s id : ℤ) + ((build_col s j : ℤ) - (scan_col s id : ℤ))
          = (build_col s j : ℤ) := by ring
      rw [heq, Int.toNat_natCast]

/-- Witness for C2 at `gridSim`: particle 1 is the only neighbor of 0
within the radius; particle 2 sits in an adjacent cell but at the exact
cutoff distance. -/
theorem scan_matches_brute_force_witness :
    (0 < gridSim.smoothing_radius) ∧ (0 < gridSim.num_particles) ∧
    (∀ j, j < gridSim.num_particles →
      |(gridSim.positions j).1| ≤ gridSim.half_bounds_size.1 ∧
      |(gridSim.positions j).2| ≤ gridSim.half_bounds_size.2) ∧
    (∀ j, j < gridSim.num_particles →
      0 ≤ axisLen (gridSim.positions j - gridSim.positions 0) ∧
      axisLen (gridSim.positions j - gridSim.positions 0) *
          axisLen (gridSim.positions j - gridSim.positions 0)
        = dot (gridSim.positions j - gridSim.positions 0)
            (gridSim.positions j - gridSim.positions 0)) ∧
    (scan_neighbors_within gridSim axisLen 0).toFinset
      = brute_force_neighbors gridSim axisLen 0 := by
  have hh : 0 < gridSim.smoothing_radius := by norm_num [gridSim, baseSim]
  have hid : 0 < gridSim.num_particles := by norm_num [gridSim, baseSim]
  have hin : ∀ j, j < gridSim.num_particles →
      |(gridSim.positions j).1| ≤ gridSim.half_bounds_size.1 ∧
      |(gridSim.positions j).2| ≤ gridSim.half_bounds_size.2 := by
    intro j hj
    have hj3 : j < 3 := hj
    interval_cases j <;> norm_num [gridSim, baseSim, abs_le]
  have hlen : ∀ j, j < gridSim.num_particles →
      0 ≤ axisLen (gridSim.positions j - gridSim.positions 0) ∧
      axisLen (gridSim.positions j - gridSim.positions 0) *
          axisLen (gridSim.positions j - gridSim.positions 0)
        = dot (gridSim.positions j - gridSim.positions 0)
            (gridSim.positions j - gridSim.positions 0) := by
    intro j hj
    have hj3 : j < 3 := hj
    interval_cases j <;>
      norm_num [gridSim, baseSim, axisLen, dot, Prod.mk_sub_mk,
        abs_mul_abs_self, abs_nonneg]
  exact ⟨hh, hid, hin, hlen,
    scan_matches_brute_force gridSim axisLen 0 hh hid hin hlen⟩

end FluidSim
